import Mathlib

/-!
# Verification of the MCP initialization probe (`debug_mcp_init.py`)

Shallow embedding of the probe script: it launches a child process, performs
the three-step MCP handshake (`initialize` request, `initialized`
notification, `tools/list` request) over the child's standard streams,
reports each step's outcome on a diagnostic stream, and tears the child down.

Modelling choices:
* JSON values are the inductive `Json`; Python truthiness (`if x:`) is
  `Json.truthy`, dict `.get` with its `AttributeError` on non-dicts is
  `pyGet`/`pyGetD`, and `len` with its `TypeError` is `pyLen`.
* A line available on the child's stdout is modelled by its parse outcome
  (`Line.parses j` when `json.loads` succeeds with value `j`,
  `Line.malformed` when it raises, `Line.fault` when the read itself
  raises); end-of-stream is exhaustion of the line list.
* The environment of one run is a `World`: whether the spawn succeeds,
  which of the three writes fault, the child's stdout lines, whether the
  child exits within the 5-second wait, and the child's stderr content.
* Each diagnostic print of the script is an `Event`; a run produces the
  event trace, the number of teardown executions, and whether an exception
  escaped `main`.
-/

namespace DebugMcpInit

/-- A JSON value, as produced by `json.loads` / consumed by `json.dumps`.
Numbers are modelled as integers (the script only ever handles integer ids). -/
inductive Json where
  | null
  | bool (b : Bool)
  | num (n : Int)
  | str (s : String)
  | arr (elems : List Json)
  | obj (fields : List (String × Json))

/-- Python truthiness of a JSON value: `None`, `False`, `0`, `""`, `[]`, `{}`
are falsy, everything else truthy. -/
def Json.truthy : Json → Bool
  | .null => false
  | .bool b => b
  | .num n => n != 0
  | .str s => s ≠ ""
  | .arr xs => !xs.isEmpty
  | .obj fs => !fs.isEmpty

/-- Whether the value is a JSON object (a Python dict). -/
def Json.isObj : Json → Bool
  | .obj _ => true
  | _ => false

/-- Field lookup on a JSON object; `none` on non-objects and missing keys
(specification-side helper, used to state properties about messages). -/
def Json.lookup : Json → String → Option Json
  | .obj fs, k => (fs.find? fun p => p.1 == k).map Prod.snd
  | _, _ => none

/-- The faults that can be raised inside the `try` block of `main`. -/
inductive Fault where
  | sendError (idx : Nat)
  | attributeError
  | typeError

/-- Python `d.get(k)`: `AttributeError` when the receiver is not a dict,
otherwise the value at `k` (`None`, i.e. `Option.none`, when absent). -/
def pyGet (j : Json) (k : String) : Except Fault (Option Json) :=
  match j with
  | .obj fs => .ok ((fs.find? fun p => p.1 == k).map Prod.snd)
  | _ => .error .attributeError

/-- Python `d.get(k, default)`: `AttributeError` when the receiver is not a
dict, otherwise the value at `k` or `default` when absent. -/
def pyGetD (j : Json) (k : String) (d : Json) : Except Fault Json :=
  match j with
  | .obj fs => .ok (((fs.find? fun p => p.1 == k).map Prod.snd).getD d)
  | _ => .error .typeError

/-- Python `len`: defined on lists, strings and dicts, `TypeError` otherwise. -/
def pyLen : Json → Except Fault Nat
  | .arr xs => .ok xs.length
  | .str s => .ok s.length
  | .obj fs => .ok fs.length
  | _ => .error .typeError

/-- One line available on the child's stdout, abstracted to its parse
outcome: `parses j` when `json.loads(line.strip())` succeeds with value `j`,
`malformed` when it raises, `fault` when the read operation itself raises. -/
inductive Line where
  | parses (j : Json)
  | malformed
  | fault

/-- A diagnostic print of the script (everything goes to `sys.stderr`). -/
inductive Event where
  | sending (msg : Json)
  | received (msg : Json)
  | readError
  | initSuccess
  | initFailed (resp : Option Json)
  | initializedSent
  | toolsSuccess
  | foundTools (n : Nat)
  | toolsFailed (resp : Option Json)
  | testError (f : Fault)
  | terminate
  | killed
  | stderrReport (s : String)

/-- The environment of one run: does `subprocess.Popen` succeed, which of
the three writes raise (1 = initialize, 2 = initialized, 3 = tools/list),
the lines the child makes available on stdout before end-of-stream, whether
the child exits within the 5-second `wait`, and the child's stderr content. -/
structure World where
  launchOk : Bool
  sendFaults : List Nat
  stdout : List Line
  exitsInTime : Bool
  stderrOutput : String

/-- Result of one `read_response` call: the returned value, the diagnostic
events it printed, and the stdout lines still unread. -/
structure ReadResult where
  resp : Option Json
  events : List Event
  rest : List Line

/-- `read_response(process)`: reads one line from the child's stdout.
At end-of-stream `readline` returns the empty string, so the function
returns `None` with no output; a line that parses is echoed as `RECEIVED`
and returned; a parse (or read) failure is caught inside the function,
logged as `ERROR reading response`, and `None` is returned — no exception
ever propagates to the caller. -/
def read_response : List Line → ReadResult
  | [] => ⟨none, [], []⟩
  | Line.parses j :: rest => ⟨some j, [Event.received j], rest⟩
  | Line.malformed :: rest => ⟨none, [Event.readError], rest⟩
  | Line.fault :: rest => ⟨none, [Event.readError], rest⟩

/-- `send_message(process, message)`: prints `SENDING: …` then writes the
serialized message and flushes; the write may raise (modelled by the
world's `sendFaults` at the send's index). The `SENDING` print happens
before the write, so it is emitted even when the write faults. -/
def send_message (w : World) (idx : Nat) (msg : Json) : List Event × Option Fault :=
  ([Event.sending msg], if idx ∈ w.sendFaults then some (Fault.sendError idx) else none)

/-- The `initialize` request literal of the script (id 1). -/
def init_request : Json :=
  .obj [("jsonrpc", .str "2.0"),
        ("id", .num 1),
        ("method", .str "initialize"),
        ("params", .obj
          [("protocolVersion", .str "2024-11-05"),
           ("capabilities", .obj
             [("roots", .obj [("listChanged", .bool true)]),
              ("sampling", .obj [])]),
           ("clientInfo", .obj
             [("name", .str "debug-client"),
              ("version", .str "1.0.0")])])]

/-- The `notifications/initialized` notification literal of the script (no id). -/
def init_notification : Json :=
  .obj [("jsonrpc", .str "2.0"),
        ("method", .str "notifications/initialized"),
        ("params", .obj [])]

/-- The `tools/list` request literal of the script (id 2). -/
def tools_request : Json :=
  .obj [("jsonrpc", .str "2.0"),
        ("id", .num 2),
        ("method", .str "tools/list"),
        ("params", .obj [])]

/-- Outcome of the condition `if resp and resp.get("result"):`. -/
inductive RespCheck where
  | failed
  | success (v : Json)

/-- Evaluates `resp and resp.get("result")` the way Python does: a falsy or
absent `resp` short-circuits to the failure branch without touching
`.get`; a truthy non-dict raises `AttributeError`; otherwise the branch is
chosen by the truthiness of the `result` value (absent counts as falsy). -/
def truthyResultCheck (resp : Option Json) : Except Fault RespCheck :=
  match resp with
  | none => .ok .failed
  | some j =>
    if j.truthy then
      match pyGet j "result" with
      | .error f => .error f
      | .ok none => .ok .failed
      | .ok (some v) => .ok (if v.truthy then .success v else .failed)
    else
      .ok .failed

/-- Steps 2 and 3 of the `try` block, reached only after a successful
initialize response (source lines 72–100): send the `initialized`
notification, print the confirmation, sleep one time unit, send the
`tools/list` request — with no read in between — then read and check its
response and count the tools. `rest` is the part of the child's stdout not
yet consumed. -/
def toolsPhase (w : World) (rest : List Line) : List Event × Option Fault :=
  let s2 := send_message w 2 init_notification
  match s2.2 with
  | some f => (s2.1, some f)
  | none =>
    let e2 := s2.1 ++ [Event.initializedSent]
    let s3 := send_message w 3 tools_request
    match s3.2 with
    | some f => (e2 ++ s3.1, some f)
    | none =>
      let e3 := e2 ++ s3.1
      let r2 := read_response rest
      match truthyResultCheck r2.resp with
      | .error f => (e3 ++ r2.events, some f)
      | .ok .failed => (e3 ++ r2.events ++ [Event.toolsFailed r2.resp], none)
      | .ok (.success v) =>
        let e4 := e3 ++ r2.events ++ [Event.toolsSuccess]
        match pyGetD v "tools" (Json.arr []) with
        | .error f => (e4, some f)
        | .ok tools =>
          match pyLen tools with
          | .error f => (e4, some f)
          | .ok n => (e4 ++ [Event.foundTools n], none)

/-- The body of `main`'s `try` block: send `initialize`, read and check the
response, and on success continue with `toolsPhase`. Returns the
diagnostic events printed and the fault that escaped to the `except`
clause, if any. -/
def handshake (w : World) : List Event × Option Fault :=
  let s1 := send_message w 1 init_request
  match s1.2 with
  | some f => (s1.1, some f)
  | none =>
    let r1 := read_response w.stdout
    match truthyResultCheck r1.resp with
    | .error f => (s1.1 ++ r1.events, some f)
    | .ok .failed => (s1.1 ++ r1.events ++ [Event.initFailed r1.resp], none)
    | .ok (.success _) =>
      let t := toolsPhase w r1.rest
      (s1.1 ++ r1.events ++ [Event.initSuccess] ++ t.1, t.2)

/-- The `finally` block: `terminate`, `wait(timeout=5)` falling back to
`kill`, then drain the child's stderr and print `STDERR: …` if and only if
the drained content is non-empty. -/
def teardownEvents (w : World) : List Event :=
  [Event.terminate]
    ++ (if w.exitsInTime then [] else [Event.killed])
    ++ (if w.stderrOutput = "" then [] else [Event.stderrReport w.stderrOutput])

/-- Observable result of one run of `main`. -/
structure RunResult where
  events : List Event
  teardownCount : Nat
  escaped : Bool

/-- `main()`: spawns the child (outside the `try` block — a spawn failure
propagates out of `main` and no teardown runs), then runs the handshake
under `try/except/finally`: any fault from the handshake is caught and
logged as `Error during test`, and the teardown always follows. -/
def main (w : World) : RunResult :=
  if w.launchOk then
    let hs := handshake w
    { events := hs.1
        ++ (match hs.2 with | some f => [Event.testError f] | none => [])
        ++ teardownEvents w,
      teardownCount := 1,
      escaped := false }
  else
    { events := [], teardownCount := 0, escaped := true }

/-- A fault-free world with the given child stdout: launch succeeds, no
write faults, the child exits within the wait, empty stderr. -/
def mkWorld (out : List Line) : World :=
  { launchOk := true, sendFaults := [], stdout := out,
    exitsInTime := true, stderrOutput := "" }

/-- The messages written to the child's stdin during a run, in order. -/
def sentMessages (evs : List Event) : List Json :=
  evs.filterMap fun e =>
    match e with
    | Event.sending m => some m
    | _ => none

/-- An initialize response whose `result` field is the empty object:
`{"jsonrpc": "2.0", "id": 1, "result": {}}`. -/
def respEmpty : Json :=
  .obj [("jsonrpc", .str "2.0"), ("id", .num 1), ("result", .obj [])]

/-- A minimal initialize response the probe accepts (truthy `result`). -/
def initOkResp : Json := .obj [("result", .bool true)]

/-- A `tools/list` response of the shape `{"result": {"tools": [t1, …, tN]}}`. -/
def toolsResp (ts : List Json) : Json :=
  .obj [("result", .obj [("tools", .arr ts)])]

/-- The world in which the child launches but exits immediately: its stdout
is closed before any line is written (end-of-stream on the first read). -/
def wChildExits : World := mkWorld []

/-- A world in which `subprocess.Popen` itself raises. -/
def wLaunchFail : World :=
  { launchOk := false, sendFaults := [], stdout := [], exitsInTime := true,
    stderrOutput := "" }

/-- A fault-free happy-path world: successful initialize, then a
`tools/list` response carrying the given tools. -/
def wHappy (ts : List Json) : World :=
  mkWorld [Line.parses initOkResp, Line.parses (toolsResp ts)]

/-- A world in which the child wrote `"boom"` on stderr before exiting. -/
def wWithStderr : World :=
  { launchOk := true, sendFaults := [], stdout := [], exitsInTime := true,
    stderrOutput := "boom" }

end DebugMcpInit

namespace DebugMcpInit

/- ### Helper lemmas -/

theorem read_response_events_sub (s : List Line) :
    ∀ e ∈ (read_response s).events, (∃ j, e = Event.received j) ∨ e = Event.readError := by
  match s with
  | [] => intro e he; simp [read_response] at he
  | Line.parses j :: rest =>
    intro e he
    simp [read_response] at he
    exact Or.inl ⟨j, he⟩
  | Line.malformed :: rest =>
    intro e he
    simp [read_response] at he
    exact Or.inr he
  | Line.fault :: rest =>
    intro e he
    simp [read_response] at he
    exact Or.inr he

theorem sentMessages_append (a b : List Event) :
    sentMessages (a ++ b) = sentMessages a ++ sentMessages b := by
  simp [sentMessages, List.filterMap_append]

theorem sentMessages_read (s : List Line) :
    sentMessages (read_response s).events = [] := by
  match s with
  | [] => rfl
  | Line.parses j :: rest => rfl
  | Line.malformed :: rest => rfl
  | Line.fault :: rest => rfl

theorem sentMessages_teardown (w : World) :
    sentMessages (teardownEvents w) = [] := by
  unfold teardownEvents sentMessages
  split <;> split <;> rfl

/- ### C4 -/

/-- C4: `read_response` returns `None` at end-of-stream; a line that fails
to parse (or a read fault) is caught inside the function, logged as a read
error, and `None` is returned to the caller — the fault never propagates
(the function's type has no fault channel at all). -/
theorem read_response_eof_and_malformed (rest : List Line) :
    read_response [] = ⟨none, [], []⟩ ∧
    read_response (Line.malformed :: rest) = ⟨none, [Event.readError], rest⟩ ∧
    read_response (Line.fault :: rest) = ⟨none, [Event.readError], rest⟩ :=
  ⟨rfl, rfl, rfl⟩

/- ### C5 -/

/-- C5: when the child exits immediately after launch (stdout closed before
any response), the first read returns `None`, the probe reports
`INITIALIZE failed`, sends nothing beyond the `initialize` request, and
teardown runs exactly once with no exception escaping the run. -/
theorem child_exits_immediately_run :
    (read_response wChildExits.stdout).resp = none ∧
    (main wChildExits).events
      = [Event.sending init_request, Event.initFailed none, Event.terminate] ∧
    (main wChildExits).teardownCount = 1 ∧
    (main wChildExits).escaped = false :=
  ⟨rfl, rfl, rfl, rfl⟩

/- ### C1 -/

/-- C1 counterexample: the response
`{"jsonrpc": "2.0", "id": 1, "result": {}}` is present and contains a
`result` field, yet the probe reports `INITIALIZE failed`, not
`INITIALIZE successful!` — because `init_response.get("result")` is the
empty dict, which is falsy in Python. -/
theorem initialize_emptyResult_fails :
    Json.lookup respEmpty "result" = some (Json.obj []) ∧
    Event.initFailed (some respEmpty) ∈ (main (mkWorld [Line.parses respEmpty])).events ∧
    Event.initSuccess ∉ (main (mkWorld [Line.parses respEmpty])).events := by
  have h : (main (mkWorld [Line.parses respEmpty])).events
      = [Event.sending init_request, Event.received respEmpty,
         Event.initFailed (some respEmpty), Event.terminate] := rfl
  refine ⟨rfl, ?_, ?_⟩ <;> rw [h] <;> simp

/-- C1 amended: for every response read after sending `initialize` —
including the absent response at end-of-stream and the absent result of a
malformed line — the probe reports `INITIALIZE successful!` if and only if
the response is truthy and its `result` field is present with a truthy
value (Python truthiness); it reports `INITIALIZE failed` exactly when the
response is absent, falsy, or an object without a truthy `result`; and for
a truthy non-object response it reports neither, the `.get` access instead
raising a fault caught at the run's top level. -/
theorem initialize_report_cases (r : Json) :
    (Event.initFailed none ∈ (main (mkWorld [])).events ∧
     Event.initFailed none ∈ (main (mkWorld [Line.malformed])).events) ∧
    (Event.initSuccess ∈ (main (mkWorld [Line.parses r])).events ↔
      (r.truthy = true ∧ ∃ v, r.lookup "result" = some v ∧ v.truthy = true)) ∧
    (Event.initFailed (some r) ∈ (main (mkWorld [Line.parses r])).events ↔
      (r.truthy = false ∨ (r.isObj = true ∧
        ¬(∃ v, r.lookup "result" = some v ∧ v.truthy = true)))) ∧
    (r.truthy = true → r.isObj = false →
      Event.testError Fault.attributeError ∈ (main (mkWorld [Line.parses r])).events) := by
  refine ⟨⟨?_, ?_⟩, ?_⟩
  · rw [show (main (mkWorld [])).events
        = [Event.sending init_request, Event.initFailed none, Event.terminate] from rfl]
    simp
  · rw [show (main (mkWorld [Line.malformed])).events
        = [Event.sending init_request, Event.readError, Event.initFailed none,
           Event.terminate] from rfl]
    simp
  cases r with
  | null => simp [main, handshake, toolsPhase, read_response, truthyResultCheck, send_message,
      mkWorld, pyGet, Json.truthy, Json.isObj, Json.lookup, teardownEvents]
  | bool b =>
    cases b <;>
      simp [main, handshake, toolsPhase, read_response, truthyResultCheck, send_message,
        mkWorld, pyGet, Json.truthy, Json.isObj, Json.lookup, teardownEvents]
  | num n =>
    by_cases hn : n = 0 <;>
      simp [main, handshake, toolsPhase, read_response, truthyResultCheck, send_message,
        mkWorld, pyGet, Json.truthy, Json.isObj, Json.lookup, teardownEvents, hn]
  | str s =>
    by_cases hs : s = "" <;>
      simp [main, handshake, toolsPhase, read_response, truthyResultCheck, send_message,
        mkWorld, pyGet, Json.truthy, Json.isObj, Json.lookup, teardownEvents, hs]
  | arr xs =>
    cases xs <;>
      simp [main, handshake, toolsPhase, read_response, truthyResultCheck, send_message,
        mkWorld, pyGet, Json.truthy, Json.isObj, Json.lookup, teardownEvents]
  | obj fs =>
    cases fs with
    | nil =>
      simp [main, handshake, toolsPhase, read_response, truthyResultCheck, send_message,
        mkWorld, pyGet, Json.truthy, Json.isObj, Json.lookup, teardownEvents]
    | cons p rest =>
      cases hf : (p :: rest).find? fun q => q.1 == "result" with
      | none =>
        simp [main, handshake, toolsPhase, read_response, truthyResultCheck, send_message,
          mkWorld, pyGet, Json.truthy, Json.isObj, Json.lookup, teardownEvents, hf]
      | some q =>
        have ht : Json.truthy (Json.obj (p :: rest)) = true := by simp [Json.truthy]
        cases hv : q.2.truthy <;>
          simp [main, handshake, toolsPhase, read_response, truthyResultCheck, send_message,
            mkWorld, pyGet, Json.isObj, Json.lookup, teardownEvents, hf, hv, ht]

/-- Witness for C1 amended, discharging the fault-case implication at the
truthy non-object response `7`. -/
theorem initialize_report_cases_witness :
    (Json.num 7).truthy = true ∧ (Json.num 7).isObj = false ∧
    Event.testError Fault.attributeError
      ∈ (main (mkWorld [Line.parses (Json.num 7)])).events :=
  ⟨rfl, rfl, ((initialize_report_cases (Json.num 7)).2.2.2 rfl rfl)⟩

/- ### C3 -/

/-- C3: for every list of tools `ts`, a `tools/list` response of the shape
`{"result": {"tools": [t1, …, tN]}}` makes the probe report
`TOOLS/LIST successful!` and `Found N tools`, for every `N = ts.length`
(0, 1 or many). -/
theorem tools_count_reported (ts : List Json) :
    Event.toolsSuccess ∈ (main (wHappy ts)).events ∧
    Event.foundTools ts.length ∈ (main (wHappy ts)).events := by
  have h : (main (wHappy ts)).events
      = [Event.sending init_request, Event.received initOkResp, Event.initSuccess,
         Event.sending init_notification, Event.initializedSent,
         Event.sending tools_request, Event.received (toolsResp ts),
         Event.toolsSuccess, Event.foundTools ts.length, Event.terminate] := rfl
  constructor <;> rw [h] <;> simp

/- ### C8 -/

/-- C8: a `tools/list` response accepted by the probe whose `result` field
is a non-empty object lacking a `tools` key is reported as
`TOOLS/LIST successful!` with `Found 0 tools`: the missing `tools` sequence
defaults to the empty list instead of being treated as a failure. -/
theorem missing_tools_defaults_empty (r : Json) (fs : List (String × Json))
    (h1 : r.truthy = true) (h2 : r.lookup "result" = some (Json.obj fs))
    (h3 : fs ≠ []) (h4 : fs.find? (fun p => p.1 == "tools") = none) :
    Event.toolsSuccess ∈ (main (mkWorld [Line.parses initOkResp, Line.parses r])).events ∧
    Event.foundTools 0 ∈ (main (mkWorld [Line.parses initOkResp, Line.parses r])).events := by
  cases r with
  | obj gs =>
    rw [Json.lookup] at h2
    obtain ⟨q, hq, hq2⟩ := Option.map_eq_some'.mp h2
    have hfs : fs.isEmpty = false := by
      simp [List.isEmpty_iff, h3]
    simp only [Json.truthy] at h1
    constructor <;>
      simp [main, handshake, toolsPhase, read_response, truthyResultCheck, send_message, mkWorld,
        pyGet, pyGetD, pyLen, teardownEvents, initOkResp, Json.truthy, hq, hq2, hfs, h4, h1]
  | null => simp [Json.lookup] at h2
  | bool b => simp [Json.lookup] at h2
  | num n => simp [Json.lookup] at h2
  | str s => simp [Json.lookup] at h2
  | arr xs => simp [Json.lookup] at h2

/-- Witness for C8 at the response `{"result": {"extra": true}}`. -/
theorem missing_tools_defaults_empty_witness :
    (Json.obj [("result", Json.obj [("extra", Json.bool true)])]).truthy = true ∧
    (Json.obj [("result", Json.obj [("extra", Json.bool true)])]).lookup "result"
      = some (Json.obj [("extra", Json.bool true)]) ∧
    ([("extra", Json.bool true)] : List (String × Json)) ≠ [] ∧
    ([("extra", Json.bool true)] : List (String × Json)).find? (fun p => p.1 == "tools") = none ∧
    (Event.toolsSuccess ∈ (main (mkWorld [Line.parses initOkResp,
        Line.parses (Json.obj [("result", Json.obj [("extra", Json.bool true)])])])).events ∧
     Event.foundTools 0 ∈ (main (mkWorld [Line.parses initOkResp,
        Line.parses (Json.obj [("result", Json.obj [("extra", Json.bool true)])])])).events) :=
  ⟨rfl, rfl, by simp, rfl,
   missing_tools_defaults_empty _ [("extra", Json.bool true)] rfl rfl (by simp) rfl⟩

/- ### C2 -/

/-- C2 counterexample: when `subprocess.Popen` itself raises, the `try`
block is never entered (the spawn happens before it), so teardown is not
invoked at all and the fault escapes the run — the claim's "including a
fault at launch" fails. -/
theorem teardown_skipped_on_launch_fault :
    (main wLaunchFail).teardownCount = 0 ∧ (main wLaunchFail).escaped = true :=
  ⟨rfl, rfl⟩

/-- C2 amended: in every run in which the launch succeeds, teardown
(terminate, bounded wait, kill on timeout, stderr drain) runs exactly once
— whatever send/read faults occur — no exception escapes the run, and the
teardown events close the trace. -/
theorem teardown_once_when_launched (w : World) (h : w.launchOk = true) :
    (main w).teardownCount = 1 ∧ (main w).escaped = false ∧
    teardownEvents w <:+ (main w).events := by
  refine ⟨by simp [main, h], by simp [main, h], ?_⟩
  exact ⟨(handshake w).1
      ++ (match (handshake w).2 with | some f => [Event.testError f] | none => []),
    by simp [main, h]⟩

/-- Witness for C2 amended at the fault-free empty-stdout world. -/
theorem teardown_once_when_launched_witness :
    (mkWorld []).launchOk = true ∧
    ((main (mkWorld [])).teardownCount = 1 ∧ (main (mkWorld [])).escaped = false ∧
     teardownEvents (mkWorld []) <:+ (main (mkWorld [])).events) :=
  ⟨rfl, teardown_once_when_launched (mkWorld []) rfl⟩

/- ### C9 -/

/-- C9 counterexample: the line `0` parses as well-formed JSON that is not
an object, and `read_response` does return it without a read error — but
the subsequent check short-circuits on its falsiness, so no field access
happens, no fault is raised, and the probe just reports
`INITIALIZE failed: 0`. -/
theorem falsy_nonobject_no_fault :
    (Json.num 0).isObj = false ∧
    (read_response [Line.parses (Json.num 0)]).resp = some (Json.num 0) ∧
    (handshake (mkWorld [Line.parses (Json.num 0)])).2 = none ∧
    (main (mkWorld [Line.parses (Json.num 0)])).events
      = [Event.sending init_request, Event.received (Json.num 0),
         Event.initFailed (some (Json.num 0)), Event.terminate] :=
  ⟨rfl, rfl, rfl, rfl⟩

/-- C9 amended: a parsed line that is well-formed JSON but not an object is
returned by `read_response` without a read error; when the value is truthy
(e.g. a nonzero number), the `.get` attribute access then raises, the fault
is caught only at the run's top level (logged as `Error during test`), and
teardown follows; a falsy value is instead reported as `INITIALIZE failed`
with no fault raised. -/
theorem truthy_nonobject_raises (j : Json) (h1 : j.isObj = false) (h2 : j.truthy = true) :
    read_response [Line.parses j] = ⟨some j, [Event.received j], []⟩ ∧
    (handshake (mkWorld [Line.parses j])).2 = some Fault.attributeError ∧
    (main (mkWorld [Line.parses j])).events
      = [Event.sending init_request, Event.received j,
         Event.testError Fault.attributeError, Event.terminate] ∧
    (main (mkWorld [Line.parses j])).teardownCount = 1 := by
  have hc : truthyResultCheck (some j) = .error Fault.attributeError := by
    cases j with
    | obj fs => simp [Json.isObj] at h1
    | null => simp [Json.truthy] at h2
    | bool b => simp only [Json.truthy] at h2; simp [truthyResultCheck, Json.truthy, pyGet, h2]
    | num n => simp only [Json.truthy] at h2; simp [truthyResultCheck, Json.truthy, pyGet, h2]
    | str s => simp only [Json.truthy] at h2; simp [truthyResultCheck, Json.truthy, pyGet, h2]
    | arr xs => simp only [Json.truthy] at h2; simp [truthyResultCheck, Json.truthy, pyGet, h2]
  refine ⟨rfl, ?_, ?_, by simp [main, mkWorld]⟩
  · simp [handshake, toolsPhase, read_response, send_message, mkWorld, hc]
  · simp [main, handshake, toolsPhase, read_response, send_message, mkWorld, hc, teardownEvents]

/-- Witness for C9 amended at the line `42`. -/
theorem truthy_nonobject_raises_witness :
    (Json.num 42).isObj = false ∧ (Json.num 42).truthy = true ∧
    (read_response [Line.parses (Json.num 42)]
        = ⟨some (Json.num 42), [Event.received (Json.num 42)], []⟩ ∧
     (handshake (mkWorld [Line.parses (Json.num 42)])).2 = some Fault.attributeError ∧
     (main (mkWorld [Line.parses (Json.num 42)])).events
        = [Event.sending init_request, Event.received (Json.num 42),
           Event.testError Fault.attributeError, Event.terminate] ∧
     (main (mkWorld [Line.parses (Json.num 42)])).teardownCount = 1) :=
  ⟨rfl, rfl, truthy_nonobject_raises (Json.num 42) rfl rfl⟩

/- ### Trace-shape lemmas for C6, C7, C10 -/

theorem initSuccess_notin_read (s : List Line) :
    Event.initSuccess ∉ (read_response s).events := by
  match s with
  | [] => simp [read_response]
  | Line.parses j :: rest => simp [read_response]
  | Line.malformed :: rest => simp [read_response]
  | Line.fault :: rest => simp [read_response]

theorem sending_notin_read (s : List Line) (m : Json) :
    Event.sending m ∉ (read_response s).events := by
  match s with
  | [] => simp [read_response]
  | Line.parses j :: rest => simp [read_response]
  | Line.malformed :: rest => simp [read_response]
  | Line.fault :: rest => simp [read_response]

theorem stderrReport_notin_read (s : List Line) (x : String) :
    Event.stderrReport x ∉ (read_response s).events := by
  match s with
  | [] => simp [read_response]
  | Line.parses j :: rest => simp [read_response]
  | Line.malformed :: rest => simp [read_response]
  | Line.fault :: rest => simp [read_response]

theorem tools_request_ne_init_notification : tools_request ≠ init_notification := by
  simp [tools_request, init_notification]

theorem tools_request_ne_init_request : tools_request ≠ init_request := by
  simp [tools_request, init_request]

theorem mem_teardownEvents (w : World) (e : Event) (h : e ∈ teardownEvents w) :
    e = Event.terminate ∨ e = Event.killed ∨ e = Event.stderrReport w.stderrOutput := by
  unfold teardownEvents at h
  by_cases h1 : w.exitsInTime <;> by_cases h2 : w.stderrOutput = "" <;>
    simp [h1, h2] at h <;> tauto

theorem sending_notin_teardown (w : World) (m : Json) :
    Event.sending m ∉ teardownEvents w := by
  intro h
  rcases mem_teardownEvents w _ h with h' | h' | h' <;> cases h'

theorem initSuccess_notin_teardown (w : World) :
    Event.initSuccess ∉ teardownEvents w := by
  intro h
  rcases mem_teardownEvents w _ h with h' | h' | h' <;> cases h'

/-- `toolsPhase` either stops at the notification send (its write faulted)
or opens with the notification send, the confirmation print and the
`tools/list` send as its first three events, followed only by read events
and tools-step reports. -/
theorem toolsPhase_shape (w : World) (s : List Line) :
    (toolsPhase w s).1 = [Event.sending init_notification] ∨
    ∃ tail, (toolsPhase w s).1
        = Event.sending init_notification :: Event.initializedSent ::
          Event.sending tools_request :: tail ∧
      sentMessages tail = [] ∧ (∀ x, Event.stderrReport x ∉ tail) ∧
      Event.initSuccess ∉ tail := by
  by_cases h2 : 2 ∈ w.sendFaults
  · left
    simp [toolsPhase, send_message, h2]
  · right
    by_cases h3 : 3 ∈ w.sendFaults
    · exact ⟨[], by simp [toolsPhase, send_message, h2, h3], rfl, by simp, by simp⟩
    · cases hc : truthyResultCheck (read_response s).resp with
      | error f =>
        refine ⟨(read_response s).events,
          by simp [toolsPhase, send_message, h2, h3, hc], sentMessages_read s,
          fun x => stderrReport_notin_read s x, initSuccess_notin_read s⟩
      | ok rc =>
        cases rc with
        | failed =>
          refine ⟨(read_response s).events ++ [Event.toolsFailed (read_response s).resp],
            by simp [toolsPhase, send_message, h2, h3, hc], ?_, ?_, ?_⟩
          · rw [sentMessages_append, sentMessages_read]; rfl
          · intro x
            simp [stderrReport_notin_read s x]
          · simp [initSuccess_notin_read s]
        | success v =>
          cases hg : pyGetD v "tools" (Json.arr []) with
          | error f =>
            refine ⟨(read_response s).events ++ [Event.toolsSuccess],
              by simp [toolsPhase, send_message, h2, h3, hc, hg], ?_, ?_, ?_⟩
            · rw [sentMessages_append, sentMessages_read]; rfl
            · intro x
              simp [stderrReport_notin_read s x]
            · simp [initSuccess_notin_read s]
          | ok tools =>
            cases hl : pyLen tools with
            | error f =>
              refine ⟨(read_response s).events ++ [Event.toolsSuccess],
                by simp [toolsPhase, send_message, h2, h3, hc, hg, hl], ?_, ?_, ?_⟩
              · rw [sentMessages_append, sentMessages_read]; rfl
              · intro x
                simp [stderrReport_notin_read s x]
              · simp [initSuccess_notin_read s]
            | ok n =>
              refine ⟨(read_response s).events ++ [Event.toolsSuccess, Event.foundTools n],
                by simp [toolsPhase, send_message, h2, h3, hc, hg, hl], ?_, ?_, ?_⟩
              · rw [sentMessages_append, sentMessages_read]; rfl
              · intro x
                simp [stderrReport_notin_read s x]
              · simp [initSuccess_notin_read s]

/-- The stdin writes of a whole handshake form an initial segment of
`initialize`, `initialized`, `tools/list`. -/
theorem handshake_sends (w : World) :
    sentMessages (handshake w).1 <+: [init_request, init_notification, tools_request] := by
  by_cases h1 : 1 ∈ w.sendFaults
  · simp [handshake, send_message, h1, sentMessages]
  · cases hc : truthyResultCheck (read_response w.stdout).resp with
    | error f =>
      rw [show (handshake w).1
          = [Event.sending init_request] ++ (read_response w.stdout).events from by
        simp [handshake, send_message, h1, hc]]
      rw [sentMessages_append, sentMessages_read]
      exact ⟨_, rfl⟩
    | ok rc =>
      cases rc with
      | failed =>
        rw [show (handshake w).1
            = [Event.sending init_request] ++ (read_response w.stdout).events
              ++ [Event.initFailed (read_response w.stdout).resp] from by
          simp [handshake, send_message, h1, hc]]
        rw [sentMessages_append, sentMessages_append, sentMessages_read]
        exact ⟨_, rfl⟩
      | success v =>
        rw [show (handshake w).1
            = [Event.sending init_request] ++ (read_response w.stdout).events
              ++ [Event.initSuccess] ++ (toolsPhase w (read_response w.stdout).rest).1 from by
          simp [handshake, send_message, h1, hc]]
        rw [sentMessages_append, sentMessages_append, sentMessages_append, sentMessages_read]
        rcases toolsPhase_shape w (read_response w.stdout).rest with hs | ⟨tail, htl, hsm, _, _⟩
        · rw [hs]
          simp [sentMessages]
        · rw [htl]
          have : sentMessages (Event.sending init_notification :: Event.initializedSent ::
              Event.sending tools_request :: tail)
              = [init_notification, tools_request] ++ sentMessages tail := rfl
          rw [this, hsm]
          simp [sentMessages]

theorem stderrReport_notin_handshake (w : World) (x : String) :
    Event.stderrReport x ∉ (handshake w).1 := by
  by_cases h1 : 1 ∈ w.sendFaults
  · simp [handshake, send_message, h1]
  · cases hc : truthyResultCheck (read_response w.stdout).resp with
    | error f =>
      simp [handshake, send_message, h1, hc, stderrReport_notin_read]
    | ok rc =>
      cases rc with
      | failed =>
        simp [handshake, send_message, h1, hc, stderrReport_notin_read]
      | success v =>
        rcases toolsPhase_shape w (read_response w.stdout).rest with hs | ⟨tail, htl, _, hsr, _⟩
        · simp [handshake, send_message, h1, hc, hs, stderrReport_notin_read]
        · simp [handshake, send_message, h1, hc, htl, stderrReport_notin_read, hsr x]

/-- Whenever the handshake reports initialize success, the success report
is immediately followed by the notification send, and if the `tools/list`
request was sent, the notification send, the confirmation and the
`tools/list` send are three consecutive events. -/
theorem handshake_success_shape (w : World)
    (h : Event.initSuccess ∈ (handshake w).1) :
    (∃ pre rest, (handshake w).1
        = pre ++ [Event.initSuccess, Event.sending init_notification] ++ rest) ∧
    (Event.sending tools_request ∈ (handshake w).1 →
      ∃ pre rest, (handshake w).1
        = pre ++ [Event.sending init_notification, Event.initializedSent,
                  Event.sending tools_request] ++ rest) := by
  by_cases h1 : 1 ∈ w.sendFaults
  · simp [handshake, send_message, h1] at h
  · cases hc : truthyResultCheck (read_response w.stdout).resp with
    | error f =>
      rw [show (handshake w).1
          = [Event.sending init_request] ++ (read_response w.stdout).events from by
        simp [handshake, send_message, h1, hc]] at h
      rcases List.mem_append.mp h with h' | h'
      · simp at h'
      · exact absurd h' (initSuccess_notin_read _)
    | ok rc =>
      cases rc with
      | failed =>
        rw [show (handshake w).1
            = [Event.sending init_request] ++ (read_response w.stdout).events
              ++ [Event.initFailed (read_response w.stdout).resp] from by
          simp [handshake, send_message, h1, hc]] at h
        rcases List.mem_append.mp h with h' | h'
        · rcases List.mem_append.mp h' with h'' | h''
          · simp at h''
          · exact absurd h'' (initSuccess_notin_read _)
        · simp at h'
      | success v =>
        have hsh : (handshake w).1
            = [Event.sending init_request] ++ (read_response w.stdout).events
              ++ [Event.initSuccess] ++ (toolsPhase w (read_response w.stdout).rest).1 := by
          simp [handshake, send_message, h1, hc]
        rcases toolsPhase_shape w (read_response w.stdout).rest
          with hsp | ⟨tail, hsp, _, _, _⟩
        · constructor
          · exact ⟨[Event.sending init_request] ++ (read_response w.stdout).events, [],
              by rw [hsh, hsp]; simp⟩
          · intro htr
            exfalso
            rw [hsh, hsp] at htr
            rcases List.mem_append.mp htr with h' | h'
            · rcases List.mem_append.mp h' with hx | hx
              · rcases List.mem_append.mp hx with h3 | h3
                · simp at h3
                  exact tools_request_ne_init_request h3
                · exact sending_notin_read _ _ h3
              · simp at hx
            · simp at h'
              exact tools_request_ne_init_notification h'
        · constructor
          · exact ⟨[Event.sending init_request] ++ (read_response w.stdout).events,
              Event.initializedSent :: Event.sending tools_request :: tail,
              by rw [hsh, hsp]; simp⟩
          · intro _
            exact ⟨[Event.sending init_request] ++ (read_response w.stdout).events
                ++ [Event.initSuccess], tail,
              by rw [hsh, hsp]; simp⟩

/- ### C7 -/

/-- C7: in every run the probe writes at most the three fixed messages, in
order — so the requests are at most `initialize` (id 1) followed by
`tools/list` (id 2), every request identifier is unique within the run,
and the notification carries no identifier. -/
theorem at_most_two_requests (w : World) :
    sentMessages (main w).events <+: [init_request, init_notification, tools_request] ∧
    Json.lookup init_request "id" = some (Json.num 1) ∧
    Json.lookup tools_request "id" = some (Json.num 2) ∧
    Json.lookup init_notification "id" = none := by
  refine ⟨?_, rfl, rfl, rfl⟩
  by_cases hl : w.launchOk
  · have hev : (main w).events
        = (handshake w).1
          ++ ((match (handshake w).2 with
               | some f => [Event.testError f] | none => [])
              ++ teardownEvents w) := by
      simp [main, hl]
    rw [hev, sentMessages_append]
    have hmid : sentMessages
        ((match (handshake w).2 with
          | some f => [Event.testError f] | none => [])
         ++ teardownEvents w) = [] := by
      rw [sentMessages_append, sentMessages_teardown]
      cases (handshake w).2 <;> rfl
    rw [hmid, List.append_nil]
    exact handshake_sends w
  · have hev : (main w).events = [] := by
      simp [main, hl]
    rw [hev]
    exact ⟨_, rfl⟩

/- ### C6 -/

/-- C6: in every run in which the initialize response is reported
successful, the `initialized` notification (no id, empty params) is sent
immediately after the success report, and no event — in particular no read
— occurs between sending the notification and sending the `tools/list`
request. -/
theorem notification_immediately_after_success (w : World)
    (h : Event.initSuccess ∈ (main w).events) :
    Json.lookup init_notification "id" = none ∧
    Json.lookup init_notification "params" = some (Json.obj []) ∧
    [Event.initSuccess, Event.sending init_notification] <:+: (main w).events ∧
    (Event.sending tools_request ∈ (main w).events →
      [Event.sending init_notification, Event.initializedSent,
       Event.sending tools_request] <:+: (main w).events) := by
  by_cases hl : w.launchOk
  case neg =>
    simp [main, hl] at h
  case pos =>
    have hev : (main w).events
        = (handshake w).1
          ++ ((match (handshake w).2 with
               | some f => [Event.testError f] | none => [])
              ++ teardownEvents w) := by
      simp [main, hl]
    have hex : ∀ e, e ∈ (main w).events →
        e ∉ ((match (handshake w).2 with
              | some f => [Event.testError f] | none => [])
             ++ teardownEvents w) → e ∈ (handshake w).1 := by
      intro e he hno
      rw [hev] at he
      rcases List.mem_append.mp he with h' | h'
      · exact h'
      · exact absurd h' hno
    have hhs : Event.initSuccess ∈ (handshake w).1 := by
      refine hex _ h ?_
      intro hin
      rcases List.mem_append.mp hin with hin | hin
      · cases hf : (handshake w).2 <;> rw [hf] at hin <;> simp at hin
      · exact initSuccess_notin_teardown w hin
    obtain ⟨⟨pre, rest, hp⟩, htool⟩ := handshake_success_shape w hhs
    refine ⟨rfl, rfl, ⟨pre, rest
      ++ ((match (handshake w).2 with
           | some f => [Event.testError f] | none => [])
          ++ teardownEvents w), ?_⟩, ?_⟩
    · rw [hev, hp]
      simp
    · intro htr
      have htr' : Event.sending tools_request ∈ (handshake w).1 := by
        refine hex _ htr ?_
        intro hin
        rcases List.mem_append.mp hin with hin | hin
        · cases hf : (handshake w).2 <;> rw [hf] at hin <;> simp at hin
        · exact sending_notin_teardown w _ hin
      obtain ⟨pre2, rest2, hp2⟩ := htool htr'
      exact ⟨pre2, rest2
        ++ ((match (handshake w).2 with
             | some f => [Event.testError f] | none => [])
            ++ teardownEvents w),
        by rw [hev, hp2]; simp⟩

/-- Witness for C6 at the happy-path world with no tools. -/
theorem notification_immediately_after_success_witness :
    Event.initSuccess ∈ (main (wHappy [])).events ∧
    (Json.lookup init_notification "id" = none ∧
     Json.lookup init_notification "params" = some (Json.obj []) ∧
     [Event.initSuccess, Event.sending init_notification] <:+: (main (wHappy [])).events ∧
     (Event.sending tools_request ∈ (main (wHappy [])).events →
       [Event.sending init_notification, Event.initializedSent,
        Event.sending tools_request] <:+: (main (wHappy [])).events)) := by
  have hmem : Event.initSuccess ∈ (main (wHappy [])).events := by
    rw [show (main (wHappy [])).events
        = [Event.sending init_request, Event.received initOkResp, Event.initSuccess,
           Event.sending init_notification, Event.initializedSent,
           Event.sending tools_request, Event.received (toolsResp []),
           Event.toolsSuccess, Event.foundTools 0, Event.terminate] from rfl]
    simp
  exact ⟨hmem, notification_immediately_after_success (wHappy []) hmem⟩

/- ### C10 -/

/-- C10: in every launched run, the `STDERR:` report appears in the trace
if and only if the content drained from the child's stderr is non-empty,
and any `STDERR:` report carries exactly that drained content. -/
theorem stderr_reported_iff_nonempty (w : World) (h : w.launchOk = true) :
    (Event.stderrReport w.stderrOutput ∈ (main w).events ↔ w.stderrOutput ≠ "") ∧
    (∀ s, Event.stderrReport s ∈ (main w).events → s = w.stderrOutput) := by
  have hev : (main w).events
      = (handshake w).1
        ++ ((match (handshake w).2 with
             | some f => [Event.testError f] | none => [])
            ++ teardownEvents w) := by
    simp [main, h]
  have hmem : ∀ s, Event.stderrReport s ∈ (main w).events ↔
      Event.stderrReport s ∈ teardownEvents w := by
    intro s
    rw [hev]
    simp only [List.mem_append]
    constructor
    · rintro (hin | hin | hin)
      · exact absurd hin (stderrReport_notin_handshake w s)
      · cases hf : (handshake w).2 <;> rw [hf] at hin <;> simp at hin
      · exact hin
    · intro hin
      exact Or.inr (Or.inr hin)
  constructor
  · rw [hmem]
    unfold teardownEvents
    by_cases h1 : w.exitsInTime <;> by_cases h2 : w.stderrOutput = "" <;>
      simp [h1, h2]
  · intro s hs
    have hs' := (hmem s).mp hs
    rcases mem_teardownEvents w _ hs' with h' | h' | h'
    · cases h'
    · cases h'
    · injection h' with h''

/-- Witness for C10 at a launched world whose child wrote `"boom"`. -/
theorem stderr_reported_iff_nonempty_witness :
    wWithStderr.launchOk = true ∧
    ((Event.stderrReport wWithStderr.stderrOutput ∈ (main wWithStderr).events ↔
        wWithStderr.stderrOutput ≠ "") ∧
     (∀ s, Event.stderrReport s ∈ (main wWithStderr).events → s = wWithStderr.stderrOutput)) :=
  ⟨rfl, stderr_reported_iff_nonempty wWithStderr rfl⟩

end DebugMcpInit
